import Mathlib

/-!
Verification of the PokeMCP battle engine (`src/index.ts` / the enhanced battle
variant). The TypeScript battle engine is shallowly embedded: JS numbers used in
the damage formula are modelled as rationals, `Math.floor` as `Int.floor`,
thrown exceptions as `Except.error` (carrying the state as mutated up to the
throw point, since the engine mutates the battle state in place), remote
fetches as `Option`-valued parameters, and the ambient random draws as explicit
parameters (the uniform factor in [0.85, 1.00], the accuracy draws in [0, 1),
and the opponent move index).
-/

deriving instance DecidableEq for Except

namespace PokeMCP

/-- Elemental status condition tag (`PokemonStatus.type` in types.ts). -/
inductive StatusType where
  | none
  | burn
  | poison
  | paralyze
  | sleep
  deriving DecidableEq, Repr

/-- Status condition with remaining turns (`PokemonStatus` in types.ts). -/
structure PokemonStatus where
  type : StatusType
  turnsLeft : ℤ
  deriving DecidableEq, Repr

/-- Weather tag (`BattleWeather.type` in types.ts). -/
inductive WeatherType where
  | none
  | sunny
  | rainy
  | sandstorm
  | hail
  deriving DecidableEq, Repr

/-- Weather condition (`BattleWeather` in types.ts). -/
structure BattleWeather where
  type : WeatherType
  turnsLeft : ℤ
  deriving DecidableEq, Repr

/-- The six base stats (`BattleStats` in types.ts); non-negative integers. -/
structure BattleStats where
  hp : ℕ
  attack : ℕ
  defense : ℕ
  specialAttack : ℕ
  specialDefense : ℕ
  speed : ℕ
  deriving DecidableEq, Repr

/-- A battle move (`BattleMove` in types.ts). The single `type` field doubles
as the category tag compared against "physical" and as the elemental affinity
fed to the type chart, exactly as in the source. -/
structure BattleMove where
  name : String
  power : ℕ
  accuracy : ℕ
  type : String
  pp : ℕ
  deriving DecidableEq, Repr

/-- Wrapper for the nested name record of the PokeAPI payload. -/
structure TypeName where
  name : String
  deriving DecidableEq, Repr

/-- One entry of a creature type list (`PokemonType` in types.ts). -/
structure PokemonType where
  type : TypeName
  deriving DecidableEq, Repr

/-- Per-stat stage modifiers (`BattlePokemon.statModifiers` in types.ts). -/
structure StatModifiers where
  attack : ℤ
  defense : ℤ
  specialAttack : ℤ
  specialDefense : ℤ
  speed : ℤ
  deriving DecidableEq, Repr

/-- Effect record of a consumable item (`BattleItem.effect`); only the heal
amount is read by the engine, `Option.none` models an absent field and the JS
truthiness test makes a present 0 behave like an absent field. -/
structure ItemEffect where
  heal : Option ℕ
  deriving DecidableEq, Repr

/-- Consumable battle item (`BattleItem` in types.ts). -/
structure BattleItem where
  name : String
  effect : ItemEffect
  deriving DecidableEq, Repr

/-- A combatant (`BattlePokemon` in types.ts, enhanced variant). -/
structure BattlePokemon where
  id : ℕ
  name : String
  level : ℕ
  types : List PokemonType
  stats : BattleStats
  moves : List BattleMove
  currentHp : ℤ
  status : PokemonStatus
  statModifiers : StatModifiers
  experience : ℕ
  items : List BattleItem
  deriving DecidableEq, Repr

/-- The encounter state (`BattleState` in types.ts, enhanced variant). -/
structure BattleState where
  playerPokemon : BattlePokemon
  opponentPokemon : BattlePokemon
  turn : ℕ
  weather : BattleWeather
  status : String
  battleLog : List String
  deriving DecidableEq, Repr

/-- The sparse type chart literal inside `calculateTypeEffectiveness`:
fire/water/grass rows only, everything else absent. -/
def typeChart (attackerType defenderType : String) : Option ℚ :=
  match attackerType, defenderType with
  | "fire", "water" => some (1 / 2)
  | "fire", "grass" => some 2
  | "fire", "ice" => some 2
  | "water", "fire" => some 2
  | "water", "grass" => some (1 / 2)
  | "water", "ground" => some 2
  | "grass", "fire" => some (1 / 2)
  | "grass", "water" => some 2
  | "grass", "bug" => some (1 / 2)
  | _, _ => Option.none

/-- Model of `calculateTypeEffectiveness`: fold over the defender types,
multiplying only when the chart has a (truthy) entry. -/
def calculateTypeEffectiveness (attackerType : String) (defenderTypes : List String) : ℚ :=
  defenderTypes.foldl
    (fun effectiveness defenderType =>
      match typeChart attackerType defenderType with
      | some m => effectiveness * m
      | Option.none => effectiveness)
    1

/-- The defense stat picked by `calculateDamage`: this rational is the divisor
of the base damage formula. -/
def damageDivisor (defender : BattlePokemon) (move : BattleMove) : ℚ :=
  if move.type = "physical" then (defender.stats.defense : ℚ)
  else (defender.stats.specialDefense : ℚ)

/-- Model of `calculateDamage`; `randomFactor` is the value of
`0.85 + Math.random() * 0.15`. -/
def calculateDamage (attacker defender : BattlePokemon) (move : BattleMove)
    (randomFactor : ℚ) : ℤ :=
  let attack : ℚ :=
    if move.type = "physical" then (attacker.stats.attack : ℚ)
    else (attacker.stats.specialAttack : ℚ)
  let defense : ℚ := damageDivisor defender move
  let level : ℚ := (attacker.level : ℚ)
  let power : ℚ := (move.power : ℚ)
  let damage : ℚ :=
    ((Int.floor (((2 * level / 5 + 2) * power * attack / defense) / 50 + 2) : ℤ) : ℚ)
  let damage : ℚ :=
    damage * calculateTypeEffectiveness move.type (defender.types.map (fun t => t.type.name))
  let damage : ℚ :=
    if attacker.status.type = StatusType.burn ∧ move.type = "physical" then damage * (1 / 2)
    else damage
  let damage : ℚ := damage * randomFactor
  Int.floor damage

/-- Model of `isMoveHit`; `draw` is the value of `Math.random()`. -/
def isMoveHit (move : BattleMove) (draw : ℚ) : Bool :=
  decide (draw * 100 ≤ (move.accuracy : ℚ))

/-- Spec-side reformulation of the effectiveness chart lookup: the product
over the defender tags of the chart entry, absent entries defaulting to 1. -/
def effectivenessProd (moveAffinity : String) (tags : List String) : ℚ :=
  (tags.map (fun tag => (typeChart moveAffinity tag).getD 1)).prod

/-- Model of `applyWeatherEffects`: sunny and rainy weather only push a log
line (cosmetic in this engine). -/
def applyWeatherEffects (battleState : BattleState) : BattleState :=
  match battleState.weather.type with
  | WeatherType.sunny =>
      { battleState with battleLog :=
          battleState.battleLog ++ ["Sunny weather boosts Fire-type moves!"] }
  | WeatherType.rainy =>
      { battleState with battleLog :=
          battleState.battleLog ++ ["Rainy weather boosts Water-type moves!"] }
  | _ => battleState

/-- The switch block of `applyStatusEffects` for one combatant: burn subtracts
floor(10% of max hp), poison floor(8% of max hp), both floored at 0 hp; the
other statuses deal no upkeep damage. Returns the updated combatant and the
pushed log lines. -/
def statusUpkeepDamage (p : BattlePokemon) : BattlePokemon × List String :=
  match p.status.type with
  | StatusType.burn =>
      let burnDamage : ℤ := Int.floor ((p.stats.hp : ℚ) * (1 / 10 : ℚ))
      ({ p with currentHp := max 0 (p.currentHp - burnDamage) },
        [p.name ++ " took burn damage!"])
  | StatusType.poison =>
      let poisonDamage : ℤ := Int.floor ((p.stats.hp : ℚ) * (8 / 100 : ℚ))
      ({ p with currentHp := max 0 (p.currentHp - poisonDamage) },
        [p.name ++ " took poison damage!"])
  | _ => (p, [])

/-- The countdown tail of `applyStatusEffects` for one combatant: decrement
`turnsLeft`; at 0 or below, reset the status to none and log it. -/
def statusCountdown (p : BattlePokemon) : BattlePokemon × List String :=
  let turnsLeft := p.status.turnsLeft - 1
  if turnsLeft ≤ 0 then
    ({ p with status := { type := StatusType.none, turnsLeft := 0 } },
      [p.name ++ "\x27s status returned to normal!"])
  else
    ({ p with status := { type := p.status.type, turnsLeft := turnsLeft } }, [])

/-- One combatant block of `applyStatusEffects` (the source duplicates this
block verbatim for player and opponent). -/
def statusUpkeep (p : BattlePokemon) : BattlePokemon × List String :=
  if p.status.type = StatusType.none then (p, [])
  else
    let d := statusUpkeepDamage p
    let c := statusCountdown d.1
    (c.1, d.2 ++ c.2)

/-- Model of `applyStatusEffects`: player block then opponent block. -/
def applyStatusEffects (battleState : BattleState) : BattleState :=
  let pu := statusUpkeep battleState.playerPokemon
  let s1 := { battleState with
    playerPokemon := pu.1
    battleLog := battleState.battleLog ++ pu.2 }
  let ou := statusUpkeep s1.opponentPokemon
  { s1 with
    opponentPokemon := ou.1
    battleLog := s1.battleLog ++ ou.2 }

/-- The random draws consumed by one `executeBattleTurn` call. -/
structure TurnRand where
  playerHitDraw : ℚ
  oppMoveIdx : ℕ
  opponentHitDraw : ℚ
  playerDamageR : ℚ
  opponentDamageR : ℚ
  deriving DecidableEq, Repr

/-- The opening of `executeBattleTurn`: clear the log, apply weather, apply
status upkeep. Everything up to here runs before the move lookup is used, so
this is the state observable when an invalid move index makes the turn throw. -/
def upkeepPhase (state : BattleState) : BattleState :=
  applyStatusEffects (applyWeatherEffects { state with battleLog := [] })

/-- The player attack block of `executeBattleTurn`: on hit, damage the
opponent (floored at 0 hp) and log it; on miss, log the miss. -/
def playerAttack (state : BattleState) (playerMove : BattleMove) (rand : TurnRand) :
    BattleState :=
  if isMoveHit playerMove rand.playerHitDraw then
    let damage := calculateDamage state.playerPokemon state.opponentPokemon playerMove
      rand.playerDamageR
    { state with
      opponentPokemon := { state.opponentPokemon with
        currentHp := max 0 (state.opponentPokemon.currentHp - damage) }
      battleLog := state.battleLog ++
        [state.playerPokemon.name ++ " used " ++ playerMove.name ++ "!",
         state.opponentPokemon.name ++ " took " ++ toString damage ++ " damage!"] }
  else
    { state with battleLog :=
        state.battleLog ++ [state.playerPokemon.name ++ "\x27s move missed!"] }

/-- The opponent attack block of `executeBattleTurn` (reached only while the
opponent is still alive): on hit, damage the player and log; on miss, log. -/
def opponentAttack (state : BattleState) (opponentMove : BattleMove) (rand : TurnRand) :
    BattleState :=
  if isMoveHit opponentMove rand.opponentHitDraw then
    let damage := calculateDamage state.opponentPokemon state.playerPokemon opponentMove
      rand.opponentDamageR
    { state with
      playerPokemon := { state.playerPokemon with
        currentHp := max 0 (state.playerPokemon.currentHp - damage) }
      battleLog := state.battleLog ++
        [state.opponentPokemon.name ++ " used " ++ opponentMove.name ++ "!",
         state.playerPokemon.name ++ " took " ++ toString damage ++ " damage!"] }
  else
    { state with battleLog :=
        state.battleLog ++ [state.opponentPokemon.name ++ "\x27s move missed!"] }

/-- Model of `executeBattleTurn`. A missing move (out-of-range index) makes the
source throw a TypeError from `isMoveHit(undefined)` after the in-place
mutations done so far; that is modelled as `Except.error` carrying the state as
mutated up to the throw point. The opponent move lookup only throws when the
opponent is still alive, mirroring the short-circuit in the source. -/
def executeBattleTurn (state : BattleState) (playerMoveIndex : ℕ) (rand : TurnRand) :
    Except BattleState BattleState :=
  let s := upkeepPhase state
  match s.playerPokemon.moves[playerMoveIndex]? with
  | Option.none => Except.error s
  | some playerMove =>
    let s := playerAttack s playerMove rand
    if s.opponentPokemon.currentHp > 0 then
      match s.opponentPokemon.moves[rand.oppMoveIdx]? with
      | Option.none => Except.error s
      | some opponentMove =>
          let s := opponentAttack s opponentMove rand
          Except.ok { s with turn := s.turn + 1 }
    else
      Except.ok { s with turn := s.turn + 1 }

/-- The battle state a turn call leaves behind, whether it returned normally or
threw (the source mutates the state in place, so the thrown case leaves the
partially updated state stored). -/
def turnResultState : Except BattleState BattleState → BattleState
  | Except.ok s => s
  | Except.error s => s

/-- Model of `getPokemonStats`: the parsed base stats, or all zeros when the
fetch failed. -/
def getPokemonStats (fetched : Option BattleStats) : BattleStats :=
  match fetched with
  | Option.none =>
      { hp := 0, attack := 0, defense := 0, specialAttack := 0, specialDefense := 0, speed := 0 }
  | some stats => stats

/-- Model of `getPokemonMoves`: the first four parsed moves, or an empty list
when the fetch failed. -/
def getPokemonMoves (fetched : Option (List BattleMove)) : List BattleMove :=
  match fetched with
  | Option.none => []
  | some moves => moves.take 4

/-- The fields of the `/pokemon/{id}` payload read by `createBattlePokemon`. -/
structure PokemonRecord where
  id : ℕ
  name : String
  types : List PokemonType
  deriving DecidableEq, Repr

/-- Model of `createBattlePokemon` (enhanced variant): fails only when the
initial creature fetch fails; the follow-up stats and moves fetches fall back
to zero stats and an empty move list. `currentHp` starts at the fetched hp. -/
def createBattlePokemon (pokemonFetch : Option PokemonRecord)
    (movesFetch : Option (List BattleMove)) (statsFetch : Option BattleStats)
    (level : ℕ) : Option BattlePokemon :=
  match pokemonFetch with
  | Option.none => Option.none
  | some pokemon =>
      let moves := getPokemonMoves movesFetch
      let stats := getPokemonStats statsFetch
      some { id := pokemon.id
             name := pokemon.name
             level := level
             types := pokemon.types
             stats := stats
             moves := moves
             currentHp := (stats.hp : ℤ)
             status := { type := StatusType.none, turnsLeft := 0 }
             statModifiers := { attack := 0, defense := 0, specialAttack := 0,
                                specialDefense := 0, speed := 0 }
             experience := 0
             items := [] }

/-- Model of `startBattle`, taking the two hydration results: throws when
either combatant could not be created, otherwise builds the fresh encounter
with turn counter 1. -/
def startBattle (playerPokemon opponentPokemon : Option BattlePokemon) :
    Except String BattleState :=
  match playerPokemon, opponentPokemon with
  | some player, some opponent =>
      Except.ok { playerPokemon := player
                  opponentPokemon := opponent
                  turn := 1
                  weather := { type := WeatherType.none, turnsLeft := 0 }
                  status := "active"
                  battleLog := [] }
  | _, _ => Except.error "Failed to create battle Pokémon"

/-- The success text of the `start_battle` tool, line by line. -/
def startBattleLines (battleState : BattleState) : List String :=
  ["Battle started!",
   battleState.playerPokemon.name ++ " vs " ++ battleState.opponentPokemon.name,
   "",
   battleState.playerPokemon.name ++ " HP: " ++ toString battleState.playerPokemon.currentHp
     ++ "/" ++ toString battleState.playerPokemon.stats.hp,
   battleState.opponentPokemon.name ++ " HP: " ++ toString battleState.opponentPokemon.currentHp
     ++ "/" ++ toString battleState.opponentPokemon.stats.hp,
   "",
   "Available moves:"] ++
  battleState.playerPokemon.moves.enum.map (fun e => toString e.1 ++ ": " ++ e.2.name)

/-- Model of the `start_battle` tool handler: on success store and describe the
new encounter; on a hydration throw report the failure and leave the stored
encounter untouched. -/
def startBattleHandler (currentBattle : Option BattleState)
    (playerPokemon opponentPokemon : Option BattlePokemon) :
    List String × Option BattleState :=
  match startBattle playerPokemon opponentPokemon with
  | Except.ok battleState => (startBattleLines battleState, some battleState)
  | Except.error msg => (["Failed to start battle: " ++ msg], currentBattle)

/-- The "no active battle" message shared by `make_move` and `use_item`. -/
def noActiveBattleMsg : String :=
  "No active battle! Start a battle first using the start_battle command."

/-- The random draws consumed by one `make_move` call: the turn draws plus the
second, display-only opponent move draw made while formatting the response. -/
structure MakeMoveRand where
  turnRand : TurnRand
  displayOppMoveIdx : ℕ
  deriving DecidableEq, Repr

/-- Model of the `make_move` tool handler. Returns the response lines and the
stored battle afterwards; `Except.error` models an uncaught throw (carrying
what remains stored). Note that the response is rebuilt from scratch: it
redraws a display-only opponent move and never includes `battleLog`. -/
def makeMoveHandler (currentBattle : Option BattleState) (moveIndex : ℕ)
    (rand : MakeMoveRand) :
    Except (Option BattleState) (List String × Option BattleState) :=
  match currentBattle with
  | Option.none => Except.ok ([noActiveBattleMsg], Option.none)
  | some battle =>
    match executeBattleTurn battle moveIndex rand.turnRand with
    | Except.error s => Except.error (some s)
    | Except.ok battleState =>
      match battleState.playerPokemon.moves[moveIndex]?,
            battleState.opponentPokemon.moves[rand.displayOppMoveIdx]? with
      | some playerMove, some opponentMove =>
        let lines :=
          ["Turn " ++ toString battleState.turn ++ ":",
           battleState.playerPokemon.name ++ " used " ++ playerMove.name ++ "!",
           battleState.opponentPokemon.name ++ " used " ++ opponentMove.name ++ "!",
           "",
           battleState.playerPokemon.name ++ " HP: "
             ++ toString battleState.playerPokemon.currentHp ++ "/"
             ++ toString battleState.playerPokemon.stats.hp,
           battleState.opponentPokemon.name ++ " HP: "
             ++ toString battleState.opponentPokemon.currentHp ++ "/"
             ++ toString battleState.opponentPokemon.stats.hp]
        if battleState.playerPokemon.currentHp ≤ 0 ∨
            battleState.opponentPokemon.currentHp ≤ 0 then
          let winner :=
            if battleState.playerPokemon.currentHp ≤ 0 then
              battleState.opponentPokemon.name
            else battleState.playerPokemon.name
          Except.ok (lines ++ ["", "Battle ended! " ++ winner ++ " won!"], Option.none)
        else
          Except.ok (lines, some battleState)
      | _, _ => Except.error (some battleState)

/-- Model of the `use_item` tool handler: validate the index, apply a truthy
heal amount capped at max hp, then remove the item; the response is the
accumulated battle log. -/
def useItemHandler (currentBattle : Option BattleState) (itemIndex : ℕ) :
    List String × Option BattleState :=
  match currentBattle with
  | Option.none => ([noActiveBattleMsg], Option.none)
  | some battle =>
    match battle.playerPokemon.items[itemIndex]? with
    | Option.none => (["Invalid item index!"], some battle)
    | some item =>
      let battle :=
        match item.effect.heal with
        | some heal =>
          if heal = 0 then battle
          else
            let p := { battle.playerPokemon with
              currentHp := min (battle.playerPokemon.stats.hp : ℤ)
                (battle.playerPokemon.currentHp + heal) }
            { battle with
              playerPokemon := p
              battleLog := battle.battleLog ++
                [p.name ++ " recovered " ++ toString heal ++ " HP!"] }
        | Option.none => battle
      let battle := { battle with
        playerPokemon := { battle.playerPokemon with
          items := battle.playerPokemon.items.eraseIdx itemIndex } }
      (battle.battleLog, some battle)

/-- Hit point invariant for one combatant: current hp stays within [0, max]. -/
def hpInvariant (p : BattlePokemon) : Prop :=
  0 ≤ p.currentHp ∧ p.currentHp ≤ (p.stats.hp : ℤ)

/-- Hit point invariant for both combatants of an encounter. -/
def stateInvariant (s : BattleState) : Prop :=
  hpInvariant s.playerPokemon ∧ hpInvariant s.opponentPokemon

instance (p : BattlePokemon) : Decidable (hpInvariant p) := by
  unfold hpInvariant; infer_instance

instance (s : BattleState) : Decidable (stateInvariant s) := by
  unfold stateInvariant; infer_instance

/-- Zero stat modifiers, as built by `createBattlePokemon`. -/
def noMods : StatModifiers :=
  { attack := 0, defense := 0, specialAttack := 0, specialDefense := 0, speed := 0 }

/-- Concrete physical move used in the concrete scenarios. -/
def exTackle : BattleMove :=
  { name := "tackle", power := 40, accuracy := 100, type := "physical", pp := 35 }

/-- Concrete always-missing move (accuracy 0) used in the concrete scenarios. -/
def exSplash : BattleMove :=
  { name := "splash", power := 0, accuracy := 0, type := "normal", pp := 40 }

/-- Concrete small stat block (max hp 10). -/
def exStatsSmall : BattleStats :=
  { hp := 10, attack := 50, defense := 50, specialAttack := 50, specialDefense := 50, speed := 50 }

/-- Concrete full stat block (max hp 100). -/
def exStatsBig : BattleStats :=
  { hp := 100, attack := 50, defense := 50, specialAttack := 50, specialDefense := 50, speed := 50 }

/-- Concrete burned combatant at 1 hp out of 10. -/
def exBurnedA : BattlePokemon :=
  { id := 1, name := "bulbasaur", level := 50, types := [{ type := { name := "grass" } }],
    stats := exStatsSmall, moves := [exSplash], currentHp := 1,
    status := { type := StatusType.burn, turnsLeft := 3 },
    statModifiers := noMods, experience := 0, items := [] }

/-- Concrete burned opponent at 1 hp out of 10. -/
def exBurnedB : BattlePokemon :=
  { exBurnedA with id := 4, name := "charmander", types := [{ type := { name := "fire" } }] }

/-- Concrete encounter in which burn upkeep zeroes both combatants. -/
def exDoubleBurnState : BattleState :=
  { playerPokemon := exBurnedA, opponentPokemon := exBurnedB, turn := 1,
    weather := { type := WeatherType.none, turnsLeft := 0 }, status := "active",
    battleLog := [] }

/-- Concrete random draws for one turn: both accuracy draws 1/2, both damage
factors 9/10, opponent move index 0. -/
def exTurnRand : TurnRand :=
  { playerHitDraw := 1 / 2, oppMoveIdx := 0, opponentHitDraw := 1 / 2,
    playerDamageR := 9 / 10, opponentDamageR := 9 / 10 }

/-- Concrete random draws for one `make_move` call. -/
def exMakeMoveRand : MakeMoveRand :=
  { turnRand := exTurnRand, displayOppMoveIdx := 0 }

/-- Concrete poisoned combatant at full 100 hp with a single move and one
healing item. -/
def exPoisonedP : BattlePokemon :=
  { id := 1, name := "bulbasaur", level := 50, types := [{ type := { name := "grass" } }],
    stats := exStatsBig, moves := [exTackle], currentHp := 100,
    status := { type := StatusType.poison, turnsLeft := 5 },
    statModifiers := noMods, experience := 0,
    items := [{ name := "potion", effect := { heal := some 20 } }] }

/-- Concrete healthy opponent at full 100 hp with a single move. -/
def exHealthyO : BattlePokemon :=
  { id := 4, name := "charmander", level := 50, types := [{ type := { name := "fire" } }],
    stats := exStatsBig, moves := [exTackle], currentHp := 100,
    status := { type := StatusType.none, turnsLeft := 0 },
    statModifiers := noMods, experience := 0, items := [] }

/-- Concrete encounter whose player has exactly one move (so the schema-legal
move indices 1 to 3 are out of range) and an active poison status. -/
def exOneMoveState : BattleState :=
  { playerPokemon := exPoisonedP, opponentPokemon := exHealthyO, turn := 1,
    weather := { type := WeatherType.none, turnsLeft := 0 }, status := "active",
    battleLog := ["Battle started!"] }

/-- Concrete healthy combatant knowing only the always-missing move. -/
def exMissP : BattlePokemon :=
  { id := 1, name := "bulbasaur", level := 50, types := [{ type := { name := "grass" } }],
    stats := exStatsBig, moves := [exSplash], currentHp := 100,
    status := { type := StatusType.none, turnsLeft := 0 },
    statModifiers := noMods, experience := 0, items := [] }

/-- Concrete healthy opponent knowing only the always-missing move. -/
def exMissO : BattlePokemon :=
  { exMissP with id := 4, name := "charmander", types := [{ type := { name := "fire" } }] }

/-- Concrete encounter in which every move misses, so the only turn events are
the two miss lines pushed to the battle log. -/
def exMissState : BattleState :=
  { playerPokemon := exMissP, opponentPokemon := exMissO, turn := 1,
    weather := { type := WeatherType.none, turnsLeft := 0 }, status := "active",
    battleLog := [] }

/-- The burned player after its upkeep: hp dropped to 0 and the burn counter
ticked down to 2. -/
def exBurnedA0 : BattlePokemon :=
  { exBurnedA with currentHp := 0, status := { type := StatusType.burn, turnsLeft := 2 } }

/-- The burned opponent after its upkeep. -/
def exBurnedB0 : BattlePokemon :=
  { exBurnedB with currentHp := 0, status := { type := StatusType.burn, turnsLeft := 2 } }

/-- The double-burn encounter after the upkeep phase of its first turn. -/
def exDoubleBurnUpkeep : BattleState :=
  { playerPokemon := exBurnedA0, opponentPokemon := exBurnedB0, turn := 1,
    weather := { type := WeatherType.none, turnsLeft := 0 }, status := "active",
    battleLog := ["bulbasaur took burn damage!", "charmander took burn damage!"] }

/-- The double-burn encounter after its first full turn: both combatants are
at 0 hp even though both started the turn above 0. -/
def exDoubleBurnAfter : BattleState :=
  { playerPokemon := exBurnedA0, opponentPokemon := exBurnedB0, turn := 2,
    weather := { type := WeatherType.none, turnsLeft := 0 }, status := "active",
    battleLog := ["bulbasaur took burn damage!", "charmander took burn damage!",
                  "bulbasaur\x27s move missed!"] }

/-- The all-miss encounter after the player miss, before the opponent move. -/
def exMissMid : BattleState :=
  { playerPokemon := exMissP, opponentPokemon := exMissO, turn := 1,
    weather := { type := WeatherType.none, turnsLeft := 0 }, status := "active",
    battleLog := ["bulbasaur\x27s move missed!"] }

/-- The all-miss encounter after its first turn. -/
def exMissAfter : BattleState :=
  { playerPokemon := exMissP, opponentPokemon := exMissO, turn := 2,
    weather := { type := WeatherType.none, turnsLeft := 0 }, status := "active",
    battleLog := ["bulbasaur\x27s move missed!", "charmander\x27s move missed!"] }

/-- The `make_move` response for the all-miss turn: note it claims both moves
were used and carries none of the battle log events. -/
def exMissLines : List String :=
  ["Turn 2:", "bulbasaur used splash!", "charmander used splash!", "",
   "bulbasaur HP: 100/100", "charmander HP: 100/100"]

/-!
Helper lemmas about the damage computation.
-/

/-- Every multiplier actually present in the sparse chart is positive. -/
lemma typeChart_pos {a t : String} {v : ℚ} (h : typeChart a t = some v) : 0 < v := by
  unfold typeChart at h
  split at h <;> cases h <;> norm_num

/-- The defaulted chart lookup is always positive. -/
lemma typeChart_getD_pos (a t : String) : 0 < (typeChart a t).getD 1 := by
  rcases h : typeChart a t with _ | v
  · simp
  · simpa using typeChart_pos h

/-- The effectiveness product is positive. -/
lemma effectivenessProd_pos (a : String) (tags : List String) :
    0 < effectivenessProd a tags := by
  unfold effectivenessProd
  induction tags with
  | nil => norm_num
  | cons t ts ih =>
      rw [List.map_cons, List.prod_cons]
      exact mul_pos (typeChart_getD_pos a t) ih

/-- The fold in `calculateTypeEffectiveness` computes the defaulted product. -/
lemma calculateTypeEffectiveness_foldl (a : String) (tags : List String) (init : ℚ) :
    tags.foldl
      (fun effectiveness defenderType =>
        match typeChart a defenderType with
        | some m => effectiveness * m
        | Option.none => effectiveness) init
      = init * effectivenessProd a tags := by
  induction tags generalizing init with
  | nil => simp [effectivenessProd]
  | cons t ts ih =>
      rw [List.foldl_cons, ih]
      unfold effectivenessProd
      rw [List.map_cons, List.prod_cons]
      rcases h : typeChart a t with _ | v <;> simp [h] <;> ring

/-- The source chart lookup loop equals the spec-side product with default 1. -/
lemma calculateTypeEffectiveness_eq_prod (a : String) (tags : List String) :
    calculateTypeEffectiveness a tags = effectivenessProd a tags := by
  unfold calculateTypeEffectiveness
  rw [calculateTypeEffectiveness_foldl, one_mul]

/-- Closed form of `calculateDamage` as one nested floor expression. -/
lemma calculateDamage_eq (attacker defender : BattlePokemon) (move : BattleMove) (r : ℚ) :
    calculateDamage attacker defender move r =
      Int.floor ((((Int.floor (((2 * (attacker.level : ℚ) / 5 + 2) * (move.power : ℚ) *
            (if move.type = "physical" then (attacker.stats.attack : ℚ)
             else (attacker.stats.specialAttack : ℚ)) / damageDivisor defender move) / 50 + 2) : ℤ) : ℚ)
        * effectivenessProd move.type (defender.types.map (fun t => t.type.name))
        * (if attacker.status.type = StatusType.burn ∧ move.type = "physical" then (1 / 2 : ℚ)
           else 1)
        * r)) := by
  simp only [calculateDamage]
  rw [calculateTypeEffectiveness_eq_prod]
  by_cases hb : attacker.status.type = StatusType.burn ∧ move.type = "physical"
  · rw [if_pos hb, if_pos hb]
  · rw [if_neg hb, if_neg hb, mul_one]

/-- The divisor picked by `calculateDamage` is non-negative. -/
lemma damageDivisor_nonneg (defender : BattlePokemon) (move : BattleMove) :
    0 ≤ damageDivisor defender move := by
  unfold damageDivisor
  split <;> positivity

/-- Damage is non-negative for any non-negative random factor. -/
lemma calculateDamage_nonneg (attacker defender : BattlePokemon) (move : BattleMove)
    (r : ℚ) (hr : 0 ≤ r) : 0 ≤ calculateDamage attacker defender move r := by
  rw [calculateDamage_eq]
  have hatk : (0 : ℚ) ≤
      (if move.type = "physical" then (attacker.stats.attack : ℚ)
       else (attacker.stats.specialAttack : ℚ)) := by
    split <;> positivity
  have hbase : (0 : ℚ) ≤
      ((2 * (attacker.level : ℚ) / 5 + 2) * (move.power : ℚ) *
        (if move.type = "physical" then (attacker.stats.attack : ℚ)
         else (attacker.stats.specialAttack : ℚ)) / damageDivisor defender move) / 50 + 2 := by
    have h1 : (0 : ℚ) ≤ 2 * (attacker.level : ℚ) / 5 + 2 := by positivity
    have h2 : (0 : ℚ) ≤ (move.power : ℚ) := by positivity
    have h3 := damageDivisor_nonneg defender move
    have h4 : (0 : ℚ) ≤
        (2 * (attacker.level : ℚ) / 5 + 2) * (move.power : ℚ) *
          (if move.type = "physical" then (attacker.stats.attack : ℚ)
           else (attacker.stats.specialAttack : ℚ)) / damageDivisor defender move :=
      div_nonneg (mul_nonneg (mul_nonneg h1 h2) hatk) h3
    have h5 : (0 : ℚ) ≤
        ((2 * (attacker.level : ℚ) / 5 + 2) * (move.power : ℚ) *
          (if move.type = "physical" then (attacker.stats.attack : ℚ)
           else (attacker.stats.specialAttack : ℚ)) / damageDivisor defender move) / 50 :=
      div_nonneg h4 (by norm_num)
    linarith
  have hfl : (0 : ℤ) ≤
      Int.floor (((2 * (attacker.level : ℚ) / 5 + 2) * (move.power : ℚ) *
        (if move.type = "physical" then (attacker.stats.attack : ℚ)
         else (attacker.stats.specialAttack : ℚ)) / damageDivisor defender move) / 50 + 2) :=
    Int.le_floor.mpr (by exact_mod_cast hbase)
  have heff := (effectivenessProd_pos move.type (defender.types.map (fun t => t.type.name))).le
  have hbf : (0 : ℚ) ≤
      (if attacker.status.type = StatusType.burn ∧ move.type = "physical" then (1 / 2 : ℚ)
       else 1) := by
    split <;> norm_num
  refine Int.le_floor.mpr ?_
  push_cast
  have hflq : (0 : ℚ) ≤
      ((Int.floor (((2 * (attacker.level : ℚ) / 5 + 2) * (move.power : ℚ) *
        (if move.type = "physical" then (attacker.stats.attack : ℚ)
         else (attacker.stats.specialAttack : ℚ)) / damageDivisor defender move) / 50 + 2) : ℤ) : ℚ) := by
    exact_mod_cast hfl
  exact mul_nonneg (mul_nonneg (mul_nonneg hflq heff) hbf) hr

/-- C1: for every attacker, defender, move and fixed random factor r in
[0.85, 1.00], `calculateDamage` equals
floor(floor((2·level/5 + 2)·power·attackStat/defenseStat / 50 + 2)
· effectiveness · burnFactor · r), where effectiveness is the product over
the defender tags of the chart entries (absent entries defaulting to 1) and
burnFactor is 1/2 exactly when the attacker is burned and the move is
physical; and the result is non-negative. -/
theorem calculateDamage_matches_formula (attacker defender : BattlePokemon)
    (move : BattleMove) (r : ℚ) (hr1 : 85 / 100 ≤ r) (hr2 : r ≤ 1) :
    calculateDamage attacker defender move r =
      Int.floor ((((Int.floor (((2 * (attacker.level : ℚ) / 5 + 2) * (move.power : ℚ) *
            (if move.type = "physical" then (attacker.stats.attack : ℚ)
             else (attacker.stats.specialAttack : ℚ)) /
            (if move.type = "physical" then (defender.stats.defense : ℚ)
             else (defender.stats.specialDefense : ℚ))) / 50 + 2) : ℤ) : ℚ)
        * effectivenessProd move.type (defender.types.map (fun t => t.type.name))
        * (if attacker.status.type = StatusType.burn ∧ move.type = "physical" then (1 / 2 : ℚ)
           else 1)
        * r)) ∧
    0 ≤ calculateDamage attacker defender move r := by
  constructor
  · rw [calculateDamage_eq]
    rfl
  · exact calculateDamage_nonneg attacker defender move r (le_trans (by norm_num) hr1)

/-- Witness for C1 at a concrete burned attacker and r = 9/10. -/
theorem calculateDamage_matches_formula_witness :
    0 ≤ calculateDamage exBurnedA exBurnedB exTackle (9 / 10) :=
  (calculateDamage_matches_formula exBurnedA exBurnedB exTackle (9 / 10)
    (by norm_num) (by norm_num)).2

/-- C2: `calculateDamage` uses attacker.attack and defender.defense when the
move category is physical, and attacker.specialAttack with
defender.specialDefense when it is special. -/
theorem calculateDamage_stat_pair (attacker defender : BattlePokemon)
    (move : BattleMove) (r : ℚ) :
    (move.type = "physical" →
      calculateDamage attacker defender move r =
        Int.floor ((((Int.floor (((2 * (attacker.level : ℚ) / 5 + 2) * (move.power : ℚ) *
              (attacker.stats.attack : ℚ) / (defender.stats.defense : ℚ)) / 50 + 2) : ℤ) : ℚ)
          * effectivenessProd move.type (defender.types.map (fun t => t.type.name))
          * (if attacker.status.type = StatusType.burn then (1 / 2 : ℚ) else 1)
          * r))) ∧
    (move.type = "special" →
      calculateDamage attacker defender move r =
        Int.floor ((((Int.floor (((2 * (attacker.level : ℚ) / 5 + 2) * (move.power : ℚ) *
              (attacker.stats.specialAttack : ℚ) / (defender.stats.specialDefense : ℚ)) / 50
                + 2) : ℤ) : ℚ)
          * effectivenessProd move.type (defender.types.map (fun t => t.type.name))
          * r))) := by
  constructor
  · intro h
    rw [calculateDamage_eq]
    unfold damageDivisor
    simp [h]
  · intro h
    rw [calculateDamage_eq]
    unfold damageDivisor
    have hne : ¬ move.type = "physical" := by rw [h]; decide
    rw [if_neg hne, if_neg hne, if_neg (by simp [hne]), mul_one]

/-!
Helper lemmas about the turn state machine.
-/

/-- Status upkeep damage leaves every field but `currentHp` unchanged. -/
lemma statusUpkeepDamage_proj (p : BattlePokemon) :
    (statusUpkeepDamage p).1.stats = p.stats ∧ (statusUpkeepDamage p).1.moves = p.moves ∧
      (statusUpkeepDamage p).1.status = p.status := by
  unfold statusUpkeepDamage
  split <;> exact ⟨rfl, rfl, rfl⟩

/-- The status countdown leaves `currentHp`, `stats` and `moves` unchanged. -/
lemma statusCountdown_proj (p : BattlePokemon) :
    (statusCountdown p).1.currentHp = p.currentHp ∧ (statusCountdown p).1.stats = p.stats ∧
      (statusCountdown p).1.moves = p.moves := by
  simp only [statusCountdown]
  split <;> exact ⟨rfl, rfl, rfl⟩

/-- A hp update of the form max 0 (hp - d) with d ≥ 0 stays within bounds. -/
lemma max_sub_bounds {hp maxHp d : ℤ} (h0 : 0 ≤ hp) (h1 : hp ≤ maxHp) (hd : 0 ≤ d) :
    0 ≤ max 0 (hp - d) ∧ max 0 (hp - d) ≤ maxHp :=
  ⟨le_max_left 0 _, max_le (h0.trans h1) (by omega)⟩

/-- Status upkeep damage preserves the hp bounds. -/
lemma statusUpkeepDamage_invariant (p : BattlePokemon) (h : hpInvariant p) :
    hpInvariant (statusUpkeepDamage p).1 := by
  obtain ⟨h0, h1⟩ := h
  unfold statusUpkeepDamage hpInvariant
  split
  · refine (max_sub_bounds h0 h1 ?_ : _)
    exact Int.le_floor.mpr (by push_cast; positivity)
  · refine (max_sub_bounds h0 h1 ?_ : _)
    exact Int.le_floor.mpr (by push_cast; positivity)
  · exact ⟨h0, h1⟩

/-- One full status upkeep block preserves the hp bounds, the stats block and
the move list. -/
lemma statusUpkeep_invariant (p : BattlePokemon) (h : hpInvariant p) :
    hpInvariant (statusUpkeep p).1 ∧ (statusUpkeep p).1.stats = p.stats ∧
      (statusUpkeep p).1.moves = p.moves := by
  unfold statusUpkeep
  split
  · exact ⟨h, rfl, rfl⟩
  · have hd := statusUpkeepDamage_invariant p h
    have hdp := statusUpkeepDamage_proj p
    have hcp := statusCountdown_proj (statusUpkeepDamage p).1
    refine ⟨?_, ?_, ?_⟩
    · unfold hpInvariant at hd ⊢
      rw [hcp.1, hcp.2.1]
      exact hd
    · rw [hcp.2.1, hdp.1]
    · rw [hcp.2.2, hdp.2.1]

/-- `applyWeatherEffects` only touches the battle log. -/
lemma applyWeatherEffects_proj (s : BattleState) :
    (applyWeatherEffects s).playerPokemon = s.playerPokemon ∧
      (applyWeatherEffects s).opponentPokemon = s.opponentPokemon ∧
      (applyWeatherEffects s).turn = s.turn := by
  unfold applyWeatherEffects
  split <;> exact ⟨rfl, rfl, rfl⟩

/-- The combatants after `applyStatusEffects` are the upkeep results. -/
lemma applyStatusEffects_player (s : BattleState) :
    (applyStatusEffects s).playerPokemon = (statusUpkeep s.playerPokemon).1 := rfl

/-- The opponent after `applyStatusEffects` is its upkeep result. -/
lemma applyStatusEffects_opponent (s : BattleState) :
    (applyStatusEffects s).opponentPokemon = (statusUpkeep s.opponentPokemon).1 := rfl

/-- `applyStatusEffects` does not change the turn counter. -/
lemma applyStatusEffects_turn (s : BattleState) :
    (applyStatusEffects s).turn = s.turn := rfl

/-- The player after the upkeep phase is the upkeep result of the player. -/
lemma upkeepPhase_player (s : BattleState) :
    (upkeepPhase s).playerPokemon = (statusUpkeep s.playerPokemon).1 := by
  unfold upkeepPhase
  rw [applyStatusEffects_player, (applyWeatherEffects_proj _).1]

/-- The opponent after the upkeep phase is the upkeep result of the opponent. -/
lemma upkeepPhase_opponent (s : BattleState) :
    (upkeepPhase s).opponentPokemon = (statusUpkeep s.opponentPokemon).1 := by
  unfold upkeepPhase
  rw [applyStatusEffects_opponent, (applyWeatherEffects_proj _).2.1]

/-- The upkeep phase does not change the turn counter. -/
lemma upkeepPhase_turn (s : BattleState) : (upkeepPhase s).turn = s.turn := by
  unfold upkeepPhase
  rw [applyStatusEffects_turn, (applyWeatherEffects_proj _).2.2]

/-- The upkeep phase does not change the player move list. -/
lemma upkeepPhase_player_moves (s : BattleState) :
    (upkeepPhase s).playerPokemon.moves = s.playerPokemon.moves := by
  rw [upkeepPhase_player]
  unfold statusUpkeep
  split
  · rfl
  · rw [(statusCountdown_proj _).2.2, (statusUpkeepDamage_proj _).2.1]

/-- The upkeep phase preserves the hp bounds of both combatants. -/
lemma upkeepPhase_invariant (s : BattleState) (h : stateInvariant s) :
    stateInvariant (upkeepPhase s) := by
  unfold stateInvariant
  rw [upkeepPhase_player, upkeepPhase_opponent]
  exact ⟨(statusUpkeep_invariant _ h.1).1, (statusUpkeep_invariant _ h.2).1⟩

/-- The player attack leaves the player combatant and the turn unchanged. -/
lemma playerAttack_proj (s : BattleState) (m : BattleMove) (rand : TurnRand) :
    (playerAttack s m rand).playerPokemon = s.playerPokemon ∧
      (playerAttack s m rand).turn = s.turn ∧
      (playerAttack s m rand).opponentPokemon.stats = s.opponentPokemon.stats ∧
      (playerAttack s m rand).opponentPokemon.moves = s.opponentPokemon.moves := by
  unfold playerAttack
  split <;> exact ⟨rfl, rfl, rfl, rfl⟩

/-- The opponent attack leaves the opponent combatant and the turn unchanged. -/
lemma opponentAttack_proj (s : BattleState) (m : BattleMove) (rand : TurnRand) :
    (opponentAttack s m rand).opponentPokemon = s.opponentPokemon ∧
      (opponentAttack s m rand).turn = s.turn ∧
      (opponentAttack s m rand).playerPokemon.stats = s.playerPokemon.stats := by
  unfold opponentAttack
  split <;> exact ⟨rfl, rfl, rfl⟩

/-- The player attack preserves the hp bounds of both combatants whenever its
random damage factor is non-negative. -/
lemma playerAttack_invariant (s : BattleState) (m : BattleMove) (rand : TurnRand)
    (hr : 0 ≤ rand.playerDamageR) (h : stateInvariant s) :
    stateInvariant (playerAttack s m rand) := by
  obtain ⟨hp, ho⟩ := h
  unfold playerAttack
  split
  · refine ⟨hp, ?_⟩
    unfold hpInvariant
    exact max_sub_bounds ho.1 ho.2 (calculateDamage_nonneg _ _ _ _ hr)
  · exact ⟨hp, ho⟩

/-- The opponent attack preserves the hp bounds of both combatants whenever
its random damage factor is non-negative. -/
lemma opponentAttack_invariant (s : BattleState) (m : BattleMove) (rand : TurnRand)
    (hr : 0 ≤ rand.opponentDamageR) (h : stateInvariant s) :
    stateInvariant (opponentAttack s m rand) := by
  obtain ⟨hp, ho⟩ := h
  unfold opponentAttack
  split
  · refine ⟨?_, ho⟩
    unfold hpInvariant
    exact max_sub_bounds hp.1 hp.2 (calculateDamage_nonneg _ _ _ _ hr)
  · exact ⟨hp, ho⟩

/-- A full turn call preserves the hp bounds, whether it returns or throws. -/
lemma executeBattleTurn_invariant (s : BattleState) (i : ℕ) (rand : TurnRand)
    (hr1 : 0 ≤ rand.playerDamageR) (hr2 : 0 ≤ rand.opponentDamageR)
    (h : stateInvariant s) :
    stateInvariant (turnResultState (executeBattleTurn s i rand)) := by
  have hup := upkeepPhase_invariant s h
  simp only [executeBattleTurn]
  rcases hmi : (upkeepPhase s).playerPokemon.moves[i]? with _ | pm
  · simp only [hmi]
    exact hup
  · simp only [hmi]
    have hpa := playerAttack_invariant (upkeepPhase s) pm rand hr1 hup
    split
    · rcases hmo : (playerAttack (upkeepPhase s) pm rand).opponentPokemon.moves[rand.oppMoveIdx]?
        with _ | om
      · simp only [hmo]
        exact hpa
      · simp only [hmo]
        exact opponentAttack_invariant _ om rand hr2 hpa
    · exact hpa

/-- The item handler preserves the hp bounds of both combatants. -/
lemma useItemHandler_invariant (s : BattleState) (j : ℕ) (h : stateInvariant s) :
    ∀ s', (useItemHandler (some s) j).2 = some s' → stateInvariant s' := by
  intro s' hs'
  obtain ⟨hp, ho⟩ := h
  simp only [useItemHandler] at hs'
  rcases hit : s.playerPokemon.items[j]? with _ | item
  · simp only [hit, Option.some.injEq] at hs'
    rw [← hs']
    exact ⟨hp, ho⟩
  · simp only [hit] at hs'
    rcases hheal : item.effect.heal with _ | heal
    · simp only [hheal, Option.some.injEq] at hs'
      rw [← hs']
      exact ⟨hp, ho⟩
    · simp only [hheal] at hs'
      by_cases hz : heal = 0
      · rw [if_pos hz] at hs'
        simp only [Option.some.injEq] at hs'
        rw [← hs']
        exact ⟨hp, ho⟩
      · rw [if_neg hz] at hs'
        simp only [Option.some.injEq] at hs'
        rw [← hs']
        refine ⟨⟨?_, ?_⟩, ho⟩
        · exact le_min (by positivity) (by have := hp.1; positivity)
        · exact min_le_left _ _

/-- C3: starting from a state where both combatants satisfy
0 ≤ currentHp ≤ stats.hp, the bound still holds after a full turn resolution
(status upkeep and both attacks, even when the turn throws mid-way) and after
a `use_item` call. -/
theorem hp_bounds_preserved (s : BattleState) (i j : ℕ) (rand : TurnRand)
    (hr1 : 85 / 100 ≤ rand.playerDamageR) (hr2 : 85 / 100 ≤ rand.opponentDamageR)
    (h : stateInvariant s) :
    stateInvariant (turnResultState (executeBattleTurn s i rand)) ∧
    (∀ s', (useItemHandler (some s) j).2 = some s' → stateInvariant s') :=
  ⟨executeBattleTurn_invariant s i rand (le_trans (by norm_num) hr1)
      (le_trans (by norm_num) hr2) h,
    useItemHandler_invariant s j h⟩

/-- Witness for C3 at the concrete double-burn encounter. -/
theorem hp_bounds_preserved_witness :
    stateInvariant (turnResultState (executeBattleTurn exDoubleBurnState 0 exTurnRand)) ∧
    (∀ s', (useItemHandler (some exDoubleBurnState) 0).2 = some s' → stateInvariant s') :=
  hp_bounds_preserved exDoubleBurnState 0 0 exTurnRand
    (by norm_num [exTurnRand]) (by norm_num [exTurnRand]) (by decide)

/-- Witness for C2 at a concrete physical move. -/
theorem calculateDamage_stat_pair_witness :
    calculateDamage exBurnedA exBurnedB exTackle (9 / 10) =
      Int.floor ((((Int.floor (((2 * (exBurnedA.level : ℚ) / 5 + 2) * (exTackle.power : ℚ) *
            (exBurnedA.stats.attack : ℚ) / (exBurnedB.stats.defense : ℚ)) / 50 + 2) : ℤ) : ℚ)
        * effectivenessProd exTackle.type (exBurnedB.types.map (fun t => t.type.name))
        * (if exBurnedA.status.type = StatusType.burn then (1 / 2 : ℚ) else 1)
        * (9 / 10))) :=
  (calculateDamage_stat_pair exBurnedA exBurnedB exTackle (9 / 10)).1 rfl

/-- The player attack does not change the player combatant. -/
lemma playerAttack_player (s : BattleState) (m : BattleMove) (rand : TurnRand) :
    (playerAttack s m rand).playerPokemon = s.playerPokemon :=
  (playerAttack_proj s m rand).1

/-- The player attack does not change the turn counter. -/
lemma playerAttack_turn (s : BattleState) (m : BattleMove) (rand : TurnRand) :
    (playerAttack s m rand).turn = s.turn :=
  (playerAttack_proj s m rand).2.1

/-- The opponent attack does not change the opponent combatant. -/
lemma opponentAttack_opponent (s : BattleState) (m : BattleMove) (rand : TurnRand) :
    (opponentAttack s m rand).opponentPokemon = s.opponentPokemon :=
  (opponentAttack_proj s m rand).1

/-- The opponent attack does not change the turn counter. -/
lemma opponentAttack_turn (s : BattleState) (m : BattleMove) (rand : TurnRand) :
    (opponentAttack s m rand).turn = s.turn :=
  (opponentAttack_proj s m rand).2.1

/-- C4 (amended): in every turn resolution the opponent attack is resolved
only while the opponent still has hp left after the player attack, and if both
combatants are still above 0 hp after the status-upkeep phase, the turn cannot
end with both at 0; simultaneous zeroing can only come from status upkeep,
which runs before the attacks. -/
theorem no_simultaneous_ko_from_attacks (s : BattleState) (i : ℕ) (rand : TurnRand)
    (pm : BattleMove)
    (hpm : (upkeepPhase s).playerPokemon.moves[i]? = some pm)
    (hp : 0 < (upkeepPhase s).playerPokemon.currentHp)
    (ho : 0 < (upkeepPhase s).opponentPokemon.currentHp) :
    ((playerAttack (upkeepPhase s) pm rand).opponentPokemon.currentHp ≤ 0 →
      ∀ s', executeBattleTurn s i rand = Except.ok s' →
        s'.playerPokemon = (upkeepPhase s).playerPokemon) ∧
    (∀ s', executeBattleTurn s i rand = Except.ok s' →
      ¬(s'.playerPokemon.currentHp = 0 ∧ s'.opponentPokemon.currentHp = 0)) := by
  constructor
  · intro hle s' hok
    simp only [executeBattleTurn, hpm] at hok
    rw [if_neg (not_lt.mpr hle)] at hok
    simp only [Except.ok.injEq] at hok
    rw [← hok]
    simp only [playerAttack_player]
  · intro s' hok hcon
    simp only [executeBattleTurn, hpm] at hok
    split at hok
    case isTrue hgt =>
      rcases hmo : (playerAttack (upkeepPhase s) pm rand).opponentPokemon.moves[rand.oppMoveIdx]?
        with _ | om
      · simp only [hmo] at hok
        exact Except.noConfusion hok
      · simp only [hmo, Except.ok.injEq] at hok
        rw [← hok] at hcon
        have h2 := hcon.2
        simp only [opponentAttack_opponent] at h2
        omega
    case isFalse hng =>
      simp only [Except.ok.injEq] at hok
      rw [← hok] at hcon
      have h1 := hcon.1
      simp only [playerAttack_player] at h1
      omega

/-- Witness for the amended C4 at the all-miss encounter. -/
theorem no_simultaneous_ko_from_attacks_witness :
    ((playerAttack (upkeepPhase exMissState) exSplash exTurnRand).opponentPokemon.currentHp ≤ 0 →
      ∀ s', executeBattleTurn exMissState 0 exTurnRand = Except.ok s' →
        s'.playerPokemon = (upkeepPhase exMissState).playerPokemon) ∧
    (∀ s', executeBattleTurn exMissState 0 exTurnRand = Except.ok s' →
      ¬(s'.playerPokemon.currentHp = 0 ∧ s'.opponentPokemon.currentHp = 0)) :=
  no_simultaneous_ko_from_attacks exMissState 0 exTurnRand exSplash rfl
    (by decide) (by decide)

/-- The burn upkeep of the concrete player: 1 hp, minus floor(10% of 10). -/
lemma statusUpkeep_exBurnedA :
    statusUpkeep exBurnedA = (exBurnedA0, ["bulbasaur took burn damage!"]) := by
  have hf : (Int.floor (((10 : ℕ) : ℚ) * (1 / 10 : ℚ)) : ℤ) = 1 := by norm_num
  simp only [statusUpkeep, statusUpkeepDamage, statusCountdown, exBurnedA, exStatsSmall, hf]
  decide

/-- The burn upkeep of the concrete opponent. -/
lemma statusUpkeep_exBurnedB :
    statusUpkeep exBurnedB = (exBurnedB0, ["charmander took burn damage!"]) := by
  have hf : (Int.floor (((10 : ℕ) : ℚ) * (1 / 10 : ℚ)) : ℤ) = 1 := by norm_num
  simp only [statusUpkeep, statusUpkeepDamage, statusCountdown, exBurnedB, exBurnedA,
    exStatsSmall, hf]
  decide

/-- The upkeep phase of the double-burn encounter zeroes both combatants. -/
lemma upkeepPhase_exDoubleBurn :
    upkeepPhase exDoubleBurnState = exDoubleBurnUpkeep := by
  simp only [upkeepPhase, applyWeatherEffects, applyStatusEffects, exDoubleBurnState,
    statusUpkeep_exBurnedA, statusUpkeep_exBurnedB]
  decide

/-- C4 (counterexample): in the double-burn encounter both combatants start
the turn above 0 hp, the turn returns normally, and both end at exactly 0 hp,
refuting the claim that simultaneous zeroing cannot occur. -/
theorem simultaneous_ko_reachable :
    0 < exDoubleBurnState.playerPokemon.currentHp ∧
    0 < exDoubleBurnState.opponentPokemon.currentHp ∧
    executeBattleTurn exDoubleBurnState 0 exTurnRand = Except.ok exDoubleBurnAfter ∧
    exDoubleBurnAfter.playerPokemon.currentHp = 0 ∧
    exDoubleBurnAfter.opponentPokemon.currentHp = 0 := by
  refine ⟨by decide, by decide, ?_, by decide, by decide⟩
  have hm1 : isMoveHit exSplash exTurnRand.playerHitDraw = false := by
    rw [isMoveHit]
    norm_num [exSplash, exTurnRand]
  have hl : exDoubleBurnUpkeep.playerPokemon.moves[0]? = some exSplash := rfl
  simp only [executeBattleTurn, upkeepPhase_exDoubleBurn, hl, playerAttack, hm1]
  decide

/-- C5: when either hydration result is unavailable, `start_battle` reports
the failure and leaves whatever encounter was stored before untouched. -/
theorem start_battle_hydration_failure (prev : Option BattleState)
    (p o : Option BattlePokemon) (h : p = Option.none ∨ o = Option.none) :
    startBattleHandler prev p o =
      (["Failed to start battle: Failed to create battle Pokémon"], prev) := by
  rcases h with h | h
  · subst h
    rcases o with _ | ob <;> rfl
  · subst h
    rcases p with _ | pb <;> rfl

/-- Witness for C5 with a failing player lookup and a stored battle. -/
theorem start_battle_hydration_failure_witness :
    startBattleHandler (some exDoubleBurnState) Option.none (some exHealthyO) =
      (["Failed to start battle: Failed to create battle Pokémon"],
        some exDoubleBurnState) :=
  start_battle_hydration_failure (some exDoubleBurnState) Option.none (some exHealthyO)
    (Or.inl rfl)

/-- C7: `make_move` with no stored encounter returns the "no active battle"
message and stores nothing. -/
theorem make_move_no_active_battle (i : ℕ) (rand : MakeMoveRand) :
    makeMoveHandler Option.none i rand = Except.ok ([noActiveBattleMsg], Option.none) :=
  rfl

/-- C9: the encounter starts with turn counter 1 and every completed turn
resolution increments it by exactly 1. -/
theorem turn_counter_spec (p o : BattlePokemon) (s t s' : BattleState) (i : ℕ)
    (rand : TurnRand)
    (h1 : startBattle (some p) (some o) = Except.ok s)
    (h2 : executeBattleTurn t i rand = Except.ok s') :
    s.turn = 1 ∧ s'.turn = t.turn + 1 := by
  constructor
  · simp only [startBattle, Except.ok.injEq] at h1
    rw [← h1]
  · simp only [executeBattleTurn] at h2
    rcases hmi : (upkeepPhase t).playerPokemon.moves[i]? with _ | pm
    · simp only [hmi] at h2
      exact Except.noConfusion h2
    · simp only [hmi] at h2
      split at h2
      · rcases hmo :
            (playerAttack (upkeepPhase t) pm rand).opponentPokemon.moves[rand.oppMoveIdx]?
          with _ | om
        · simp only [hmo] at h2
          exact Except.noConfusion h2
        · simp only [hmo, Except.ok.injEq] at h2
          rw [← h2]
          simp only [opponentAttack_turn, playerAttack_turn, upkeepPhase_turn]
      · simp only [Except.ok.injEq] at h2
        rw [← h2]
        simp only [playerAttack_turn, upkeepPhase_turn]

/-- The all-miss turn: both sides miss and only the log and counter change. -/
lemma exMiss_turn_eq :
    executeBattleTurn exMissState 0 exTurnRand = Except.ok exMissAfter := by
  have hm1 : isMoveHit exSplash exTurnRand.playerHitDraw = false := by
    rw [isMoveHit]
    norm_num [exSplash, exTurnRand]
  have hm2 : isMoveHit exSplash exTurnRand.opponentHitDraw = false := by
    rw [isMoveHit]
    norm_num [exSplash, exTurnRand]
  have hu : upkeepPhase exMissState = exMissState := rfl
  have hl : exMissState.playerPokemon.moves[0]? = some exSplash := rfl
  have hpa : playerAttack exMissState exSplash exTurnRand = exMissMid := by
    simp only [playerAttack, hm1, Bool.false_eq_true, if_false]
    decide
  have hmidhp : exMissMid.opponentPokemon.currentHp = 100 := rfl
  have hlo : exMissMid.opponentPokemon.moves[exTurnRand.oppMoveIdx]? = some exSplash := rfl
  have hoa : opponentAttack exMissMid exSplash exTurnRand =
      { exMissMid with
        battleLog := exMissMid.battleLog ++ ["charmander\x27s move missed!"] } := by
    simp only [opponentAttack, hm2, Bool.false_eq_true, if_false]
    decide
  simp only [executeBattleTurn, hu, hl, hpa, hmidhp, hlo, hoa]
  rw [if_pos (by norm_num : (100 : ℤ) > 0)]
  decide

/-- Witness for C9 at the all-miss encounter (which `startBattle` builds). -/
theorem turn_counter_spec_witness :
    exMissState.turn = 1 ∧ exMissAfter.turn = exMissState.turn + 1 :=
  turn_counter_spec exMissP exMissO exMissState exMissState exMissAfter 0 exTurnRand
    rfl exMiss_turn_eq

/-- C6 (amended): indices outside 0 to 3 are rejected by schema validation
before the handler runs, but a schema-legal index at or beyond the actual move
count is not answered with an InvalidMoveIndex reply: the handler clears the
log, runs weather and status upkeep (mutating the state in place) and then
throws from the unchecked move indexing. -/
theorem make_move_oob_index_throws (battle : BattleState) (i : ℕ) (rand : MakeMoveRand)
    (h : battle.playerPokemon.moves[i]? = Option.none) :
    makeMoveHandler (some battle) i rand = Except.error (some (upkeepPhase battle)) := by
  have h2 : (upkeepPhase battle).playerPokemon.moves[i]? = Option.none := by
    rw [upkeepPhase_player_moves]
    exact h
  simp only [makeMoveHandler, executeBattleTurn, h2]

/-- Witness for the amended C6 at the one-move encounter and index 3. -/
theorem make_move_oob_index_throws_witness :
    makeMoveHandler (some exOneMoveState) 3 exMakeMoveRand =
      Except.error (some (upkeepPhase exOneMoveState)) :=
  make_move_oob_index_throws exOneMoveState 3 exMakeMoveRand rfl

/-- C6 (counterexample): with a single known move and the schema-legal index
3, `make_move` throws instead of returning an InvalidMoveIndex reply, and the
stored state was already mutated: poison upkeep dropped the player from 100 hp
to 92 before the indexing failure. -/
theorem make_move_unchecked_indexing_mutates :
    makeMoveHandler (some exOneMoveState) 3 exMakeMoveRand =
      Except.error (some (upkeepPhase exOneMoveState)) ∧
    (upkeepPhase exOneMoveState).playerPokemon.currentHp = 92 ∧
    exOneMoveState.playerPokemon.currentHp = 100 := by
  refine ⟨?_, ?_, rfl⟩
  · have h2 : (upkeepPhase exOneMoveState).playerPokemon.moves[3]? = Option.none := by
      rw [upkeepPhase_player_moves]
      rfl
    simp only [makeMoveHandler, executeBattleTurn, h2]
  · rw [upkeepPhase_player]
    have hf : (Int.floor (((100 : ℕ) : ℚ) * (8 / 100 : ℚ)) : ℤ) = 8 := by norm_num
    simp only [statusUpkeep, statusUpkeepDamage, statusCountdown, exOneMoveState,
      exPoisonedP, exStatsBig, hf]
    decide

/-- C8 (amended): a completed `make_move` reply contains a turn header, a line
for the selected player move and one for a freshly drawn display-only
opponent move (both phrased as "used" regardless of what actually happened),
the current and max hp of both combatants, and a victory block (with the
stored battle cleared) exactly when one combatant is at 0 hp; the per-turn
event log accumulated during resolution is not part of the reply. -/
theorem make_move_reply_shape (battle s' : BattleState) (i : ℕ) (rand : MakeMoveRand)
    (lines : List String) (store : Option BattleState) (pm om : BattleMove)
    (hok : makeMoveHandler (some battle) i rand = Except.ok (lines, store))
    (ht : executeBattleTurn battle i rand.turnRand = Except.ok s')
    (hpm : s'.playerPokemon.moves[i]? = some pm)
    (hom : s'.opponentPokemon.moves[rand.displayOppMoveIdx]? = some om) :
    (store = Option.none ↔
      (s'.playerPokemon.currentHp ≤ 0 ∨ s'.opponentPokemon.currentHp ≤ 0)) ∧
    lines =
      ["Turn " ++ toString s'.turn ++ ":",
       s'.playerPokemon.name ++ " used " ++ pm.name ++ "!",
       s'.opponentPokemon.name ++ " used " ++ om.name ++ "!",
       "",
       s'.playerPokemon.name ++ " HP: " ++ toString s'.playerPokemon.currentHp ++ "/"
         ++ toString s'.playerPokemon.stats.hp,
       s'.opponentPokemon.name ++ " HP: " ++ toString s'.opponentPokemon.currentHp ++ "/"
         ++ toString s'.opponentPokemon.stats.hp] ++
      (if s'.playerPokemon.currentHp ≤ 0 ∨ s'.opponentPokemon.currentHp ≤ 0 then
        ["", "Battle ended! " ++
          (if s'.playerPokemon.currentHp ≤ 0 then s'.opponentPokemon.name
           else s'.playerPokemon.name) ++ " won!"]
       else []) := by
  simp only [makeMoveHandler, ht, hpm, hom] at hok
  split at hok
  case isTrue hend =>
    simp only [Except.ok.injEq, Prod.mk.injEq] at hok
    obtain ⟨hl, hs⟩ := hok
    subst hl
    subst hs
    refine ⟨iff_of_true rfl hend, ?_⟩
    rw [if_pos hend]
  case isFalse hend =>
    simp only [Except.ok.injEq, Prod.mk.injEq] at hok
    obtain ⟨hl, hs⟩ := hok
    subst hl
    subst hs
    refine ⟨iff_of_false (by simp) hend, ?_⟩
    rw [if_neg hend, List.append_nil]

/-- The all-miss `make_move` call: reply lines and stored state. -/
lemma exMiss_handler_eq :
    makeMoveHandler (some exMissState) 0 exMakeMoveRand =
      Except.ok (exMissLines, some exMissAfter) := by
  have hrt : exMakeMoveRand.turnRand = exTurnRand := rfl
  simp only [makeMoveHandler, hrt, exMiss_turn_eq]
  decide

/-- C8 (counterexample): in the all-miss turn the resolution appends the miss
line to the battle log, yet the `make_move` reply does not contain it (the
reply even claims both moves were used): the reply does not carry the event
log of the turn. -/
theorem make_move_reply_omits_turn_log :
    makeMoveHandler (some exMissState) 0 exMakeMoveRand =
      Except.ok (exMissLines, some exMissAfter) ∧
    "bulbasaur\x27s move missed!" ∈ exMissAfter.battleLog ∧
    "bulbasaur\x27s move missed!" ∉ exMissLines :=
  ⟨exMiss_handler_eq, by decide, by decide⟩

/-- Witness for the amended C8 at the all-miss encounter. -/
theorem make_move_reply_shape_witness :
    (some exMissAfter = Option.none ↔
      (exMissAfter.playerPokemon.currentHp ≤ 0 ∨
        exMissAfter.opponentPokemon.currentHp ≤ 0)) ∧
    exMissLines =
      ["Turn " ++ toString exMissAfter.turn ++ ":",
       exMissAfter.playerPokemon.name ++ " used " ++ exSplash.name ++ "!",
       exMissAfter.opponentPokemon.name ++ " used " ++ exSplash.name ++ "!",
       "",
       exMissAfter.playerPokemon.name ++ " HP: "
         ++ toString exMissAfter.playerPokemon.currentHp ++ "/"
         ++ toString exMissAfter.playerPokemon.stats.hp,
       exMissAfter.opponentPokemon.name ++ " HP: "
         ++ toString exMissAfter.opponentPokemon.currentHp ++ "/"
         ++ toString exMissAfter.opponentPokemon.stats.hp] ++
      (if exMissAfter.playerPokemon.currentHp ≤ 0 ∨
          exMissAfter.opponentPokemon.currentHp ≤ 0 then
        ["", "Battle ended! " ++
          (if exMissAfter.playerPokemon.currentHp ≤ 0 then
            exMissAfter.opponentPokemon.name
           else exMissAfter.playerPokemon.name) ++ " won!"]
       else []) :=
  make_move_reply_shape exMissState exMissAfter 0 exMakeMoveRand exMissLines
    (some exMissAfter) exSplash exSplash exMiss_handler_eq exMiss_turn_eq rfl rfl

/-- C10: when the creature fetch succeeds but the stats fetch fails,
`createBattlePokemon` still builds a combatant, every stat is 0 and so is its
current hp, `startBattle` happily builds an encounter around it, and for every
move the divisor used by `calculateDamage` against this combatant is 0: the
division in the damage formula is unguarded. -/
theorem zero_stats_hydration_reachable (pr : PokemonRecord)
    (movesFetch : Option (List BattleMove)) :
    ∃ bp, createBattlePokemon (some pr) movesFetch Option.none 50 = some bp ∧
      bp.stats = { hp := 0, attack := 0, defense := 0, specialAttack := 0,
                   specialDefense := 0, speed := 0 } ∧
      bp.currentHp = 0 ∧
      (∀ move : BattleMove, damageDivisor bp move = 0) ∧
      (∀ opp, ∃ st, startBattle (some bp) (some opp) = Except.ok st ∧
        st.playerPokemon = bp) := by
  refine ⟨_, rfl, rfl, rfl, ?_, ?_⟩
  · intro move
    unfold damageDivisor
    split <;> simp [getPokemonStats]
  · intro opp
    exact ⟨_, rfl, rfl⟩

end PokeMCP
